import Mathlib

/-!
Shallow embedding of `modelscope/trainers/hooks/deepspeed_hook.py`.

The DeepSpeed JSON configuration is modelled as a flat association list from
dotted key paths to values.  The helper operations `is_auto`, `fill_match` and
`fill_only` of the base class `HfTrainerDeepSpeedConfig` (an external
collaborator of this file) are modelled from the spec's definition of "fill"
and "reconcile": set the value only if the key currently holds the
placeholder `auto`; an explicit value differing from the computed one is
recorded as a mismatch (for `fill_match`) and never overwritten; a key whose
node is absent is left untouched.  A mismatch is kept as a structured record
(key, config value, computed value); the source renders it to the string
`- ds {key}={ds_val} vs hf {hf_key}={hf_val}` before aggregation, which is
presentation only.
-/

deriving instance DecidableEq for Except

/-- Configuration values: the placeholder `auto`, numbers (Python ints and
floats are both modelled as rationals), strings and booleans. -/
inductive CVal where
  | auto : CVal
  | num : ℚ → CVal
  | str : String → CVal
  | bool : Bool → CVal
deriving DecidableEq

/-- Structured form of one entry of `self.mismatches`: the dotted key, the
explicit value found in the DeepSpeed config, and the value computed from the
training arguments. -/
structure Mismatch where
  key : String
  ds_val : CVal
  hf_val : CVal
deriving DecidableEq

/-- The DeepSpeed configuration object: its (flattened) JSON entries, the
accumulated mismatch list, and the cached ZeRO stage (`_stage`, `-1` when the
config has no `zero_optimization.stage` entry), which `is_zero3` consults. -/
structure DSConfig where
  entries : List (String × CVal)
  mismatches : List Mismatch
  stage : ℤ
deriving DecidableEq

/-- First-match lookup in an association list (dict access `config.get(key)`;
`none` models both an absent leaf and an absent parent node). -/
def lookupVal {V : Type} : List (String × V) → String → Option V
  | [], _ => none
  | (k', v) :: rest, k => if k' = k then some v else lookupVal rest k

/-- Assignment to an existing key of an association list (dict assignment
`config[key] = v` for a key that is present). -/
def setValue {V : Type} : List (String × V) → String → V → List (String × V)
  | [], _, _ => []
  | (k', w) :: rest, k, v => (k', if k' = k then v else w) :: setValue rest k v

/-- Dict assignment `config[key] = v` that inserts the key when absent. -/
def setInsert {V : Type} (es : List (String × V)) (k : String) (v : V) : List (String × V) :=
  if (lookupVal es k).isSome then setValue es k v else es ++ [(k, v)]

/-- Value of a dotted key in the config (`get_value`). -/
def getValue (c : DSConfig) (k : String) : Option CVal :=
  lookupVal c.entries k

/-- Modelled from the spec: `is_auto` of the external config object — the key
currently holds the placeholder `auto`. -/
def is_auto (c : DSConfig) (k : String) : Bool :=
  getValue c k == some CVal.auto

/-- Modelled from the spec: `fill_match` of the external config object.  If
the key holds `auto`, set it to the computed value; if it holds an explicit
differing value and `must_match` is set, record a mismatch; otherwise leave
the config untouched (in particular when the key or its node is absent). -/
def fill_match (c : DSConfig) (k : String) (v : CVal) (must_match : Bool) : DSConfig :=
  match getValue c k with
  | none => c
  | some CVal.auto => { c with entries := setValue c.entries k v }
  | some w =>
      if must_match && w ≠ v then
        { c with mismatches := c.mismatches ++ [⟨k, w, v⟩] }
      else c

/-- Modelled from the spec: `fill_only` is `fill_match` with `must_match`
disabled (the source defines it with functools.partialmethod). -/
def fill_only (c : DSConfig) (k : String) (v : CVal) : DSConfig :=
  fill_match c k v false

/-- Modelled from the spec: `is_zero3` of the external config object — the
cached ZeRO stage equals 3. -/
def is_zero3 (c : DSConfig) : Bool :=
  c.stage == 3

/-- The model's structural metadata: `model.config` may expose a scalar
`hidden_size` attribute, a `hidden_sizes` list attribute, both, or neither. -/
structure ModelConfig where
  hidden_size : Option ℤ
  hidden_sizes : Option (List ℤ)

/-- Errors raised by `trainer_config_finalize`.  `hiddenSizeError` is the
ValueError naming the unresolved auto keys; `emptySeqMax` is the ValueError
Python's `max` raises on an empty `hidden_sizes`; `mismatchError` is the
aggregated ValueError listing every recorded mismatch. -/
inductive FinalizeError where
  | hiddenSizeError (keys : List String)
  | emptySeqMax
  | mismatchError (ms : List Mismatch)
deriving DecidableEq

/-- The three config keys whose `auto` value is resolved from the model's
hidden size (`hidden_size_based_keys`, deepspeed_hook.py lines 40-44). -/
def hidden_size_based_keys : List String :=
  [ "zero_optimization.reduce_bucket_size",
    "zero_optimization.stage3_prefetch_bucket_size",
    "zero_optimization.stage3_param_persistence_threshold" ]

/-- Resolution of the model's hidden dimension (lines 50-61): the scalar
`hidden_size` attribute if present, else the maximum of `hidden_sizes`, else
the ValueError naming the unresolved keys. -/
def resolve_hidden_size (mc : ModelConfig) (autoKeys : List String) :
    Except FinalizeError ℤ :=
  match mc.hidden_size with
  | some h => Except.ok h
  | none =>
      match mc.hidden_sizes with
      | some hs =>
          match hs.max? with
          | some h => Except.ok h
          | none => Except.error FinalizeError.emptySeqMax
      | none => Except.error (FinalizeError.hiddenSizeError autoKeys)

/-- The hidden-size-based fills (lines 63-71): the reduce bucket size is
filled with `hidden_size * hidden_size`; when ZeRO stage 3 is active the
prefetch bucket size is filled with `0.9 * hidden_size * hidden_size` and the
parameter persistence threshold with `10 * hidden_size`. -/
def fill_hidden (c : DSConfig) (h : ℤ) : DSConfig :=
  let c1 := fill_only c "zero_optimization.reduce_bucket_size"
    (CVal.num ((h : ℚ) * (h : ℚ)))
  if is_zero3 c1 then
    let c2 := fill_only c1 "zero_optimization.stage3_prefetch_bucket_size"
      (CVal.num ((9 / 10 : ℚ) * (h : ℚ) * (h : ℚ)))
    fill_only c2 "zero_optimization.stage3_param_persistence_threshold"
      (CVal.num ((10 : ℚ) * (h : ℚ)))
  else c1

/-- The hidden-size part of finalization (lines 45-71): nothing happens when
no hidden-size-based key is `auto`; otherwise the hidden size is resolved and
the fills applied. -/
def hidden_part (c : DSConfig) (mc : ModelConfig) : Except FinalizeError DSConfig :=
  if (hidden_size_based_keys.filter (fun k => is_auto c k)).length > 0 then
    (resolve_hidden_size mc
      (hidden_size_based_keys.filter (fun k => is_auto c k))).map (fill_hidden c)
  else Except.ok c

/-- The warmup options of `args.train.optimizer.options.warmup`; `none`
models an absent key, read with defaults 0 and 0.0 (lines 74-77). -/
structure TrainArgs where
  warmup_steps : Option ℤ
  warmup_ratio : Option ℚ

/-- Warmup step resolution (lines 78-79): an explicit positive
`warmup_steps` wins; otherwise `ceil(num_training_steps * warmup_ratio)`. -/
def resolvedWarmupSteps (ws : ℤ) (r : ℚ) (n : ℤ) : ℤ :=
  if ws > 0 then ws else ⌈(n : ℚ) * r⌉

/-- The scheduler part of finalization (lines 80-81): reconcile the total
step count and the resolved warmup step count. -/
def scheduler_fills (c : DSConfig) (args : TrainArgs) (n : ℤ) : DSConfig :=
  let warmup := resolvedWarmupSteps (args.warmup_steps.getD 0) (args.warmup_ratio.getD 0) n
  let c1 := fill_match c "scheduler.params.total_num_steps" (CVal.num (n : ℚ)) true
  fill_match c1 "scheduler.params.warmup_num_steps" (CVal.num (warmup : ℚ)) true

/-- `DeepSpeedConfig.trainer_config_finalize` (lines 31-88): hidden-size
resolution and fills, scheduler reconciliation, then the aggregated mismatch
error when any mismatch was recorded. -/
def trainer_config_finalize (c : DSConfig) (mc : ModelConfig) (args : TrainArgs)
    (num_training_steps : ℤ) : Except FinalizeError DSConfig :=
  match hidden_part c mc with
  | Except.error e => Except.error e
  | Except.ok c1 =>
      let c2 := scheduler_fills c1 args num_training_steps
      if c2.mismatches.length > 0 then
        Except.error (FinalizeError.mismatchError c2.mismatches)
      else Except.ok c2

/-- Steps per epoch in `before_run` (line 330): floor division
`iters_per_epoch // gradient_accumulation_steps`. -/
def num_update_steps_per_epoch (iters ga : ℕ) : ℕ :=
  iters / ga

/-- The `max_steps` computed in `before_run` (line 331):
`ceil(max_epochs * num_update_steps_per_epoch)`; it is passed as
`num_training_steps` to `trainer_config_finalize` and to engine setup. -/
def before_run_max_steps (max_epochs iters ga : ℕ) : ℤ :=
  ⌈(max_epochs : ℚ) * (num_update_steps_per_epoch iters ga : ℚ)⌉

/-- Modelled from the spec: the total step count as the spec words it,
`ceil(max_epochs * (iters_per_epoch / gradient_accumulation_steps))` with
true division, for comparison with `before_run_max_steps`. -/
def spec_max_steps (max_epochs iters ga : ℕ) : ℤ :=
  ⌈(max_epochs : ℚ) * ((iters : ℚ) / (ga : ℚ))⌉

/-- Presence of a top-level section in the config (`'optimizer' in config`):
in the flattened entry list, either the key itself or some dotted sub-key of
it is present. -/
def hasSection (c : DSConfig) (k : String) : Bool :=
  c.entries.any (fun p => p.1 == k || p.1.startsWith (k ++ "."))

/-- `deepspeed_optim_sched` (lines 91-111): when the config has no
`optimizer` block, hand the trainer's optimizer to the engine and set the
`zero_allow_untested_optimizer` flag; otherwise pass `None` and leave the
config alone.  The trainer's scheduler is passed exactly when the config has
no `scheduler` block.  The result is (optimizer, lr_scheduler, config). -/
def deepspeed_optim_sched {α β : Type} (c : DSConfig) (trainer_optimizer : α)
    (trainer_scheduler : β) : Option α × Option β × DSConfig :=
  let optPair : Option α × DSConfig :=
    if hasSection c "optimizer" then (none, c)
    else (some trainer_optimizer,
      { c with entries := setInsert c.entries "zero_allow_untested_optimizer" (CVal.bool true) })
  let lr_scheduler : Option β :=
    if hasSection c "scheduler" then none else some trainer_scheduler
  (optPair.1, lr_scheduler, optPair.2)

/-- State of the megatron `mpu` collaborator: either uninitialized (its rank
and world-size getters raise AssertionError) or carrying the tensor-parallel
world size and this process's tensor-parallel rank. -/
inductive MpuState where
  | uninitialized
  | ready (world_size : ℕ) (rank : ℕ)
deriving DecidableEq

/-- `mpu.get_tensor_model_parallel_world_size`; the error models the
AssertionError raised before initialization. -/
def get_tensor_model_parallel_world_size : MpuState → Except Unit ℕ
  | MpuState.uninitialized => Except.error ()
  | MpuState.ready ws _ => Except.ok ws

/-- `mpu.get_tensor_model_parallel_rank`; the error models the
AssertionError raised before initialization. -/
def get_tensor_model_parallel_rank : MpuState → Except Unit ℕ
  | MpuState.uninitialized => Except.error ()
  | MpuState.ready _ r => Except.ok r

/-- Python's format spec `{:02d}` for a natural number: the decimal digits,
left-padded with a zero to a minimum width of two. -/
def format02 (n : ℕ) : String :=
  let s := toString n
  if s.length < 2 then "0" ++ s else s

/-- Body of `DeepspeedHook.rank_name` (lines 168-173), before the
try/except: empty for tensor-parallel width 1, else the rank suffix. -/
def rank_name_attempt (mpu : MpuState) : Except Unit String := do
  let tp_world_size ← get_tensor_model_parallel_world_size mpu
  if tp_world_size = 1 then
    return ""
  let mp_rank ← get_tensor_model_parallel_rank mpu
  return "_mp_rank_" ++ format02 mp_rank

/-- `DeepspeedHook.rank_name` (lines 166-175): the rank qualifier, with the
ImportError/AssertionError of the mpu lookup caught and turned into the
empty string. -/
def rank_name (mpu : MpuState) : String :=
  match rank_name_attempt mpu with
  | Except.ok s => s
  | Except.error _ => ""

/-- `DeepspeedHook.get_bin_file` (lines 157-160): the flat weights file name
`mp_rank_{rank:02d}_model_states.pt`; the mpu rank lookup here is not
guarded, so its failure propagates. -/
def get_bin_file (mpu : MpuState) : Except Unit String := do
  let mp_rank ← get_tensor_model_parallel_rank mpu
  return "mp_rank_" ++ format02 mp_rank ++ "_model_states.pt"

/-- A flat weights file as produced by `torch.load`: a serialized mapping
whose top-level key `module` holds the parameter-name to tensor mapping
(tensor values are opaque, represented by an arbitrary type `V`). -/
structure CheckpointFile (V : Type) where
  module : List (String × V)
deriving DecidableEq

/-- Errors of the checkpoint load path: the `assert os.path.isdir` failure,
the RuntimeError of a strict `load_state_dict` with mismatched keys (carrying
the unexpected and missing key lists), a missing weights file
(FileNotFoundError of `torch.load`), and an unguarded mpu lookup failure. -/
inductive LoadError where
  | assertionError
  | strictLoadError (unexpected missing : List String)
  | fileNotFound
  | mpuError
deriving DecidableEq

/-- Keys of the checkpoint mapping that the target model's state dict does
not contain (torch's "unexpected keys"). -/
def unexpected_keys {V : Type} (model_dict ckpt : List (String × V)) : List String :=
  (ckpt.map Prod.fst).filter (fun k => !(lookupVal model_dict k).isSome)

/-- Keys of the target model's state dict that the checkpoint mapping does
not contain (torch's "missing keys"). -/
def missing_keys {V : Type} (model_dict ckpt : List (String × V)) : List String :=
  (model_dict.map Prod.fst).filter (fun k => !(lookupVal ckpt k).isSome)

/-- Modelled from library semantics: `torch.nn.Module.load_state_dict`.
With `strict` set it raises a RuntimeError when any key is unexpected or
missing; otherwise it assigns the checkpoint value to every matching key of
the model's state and leaves the other model entries unchanged. -/
def load_state_dict {V : Type} (model_dict ckpt : List (String × V)) (strict : Bool) :
    Except LoadError (List (String × V)) :=
  if strict && (!(unexpected_keys model_dict ckpt).isEmpty
      || !(missing_keys model_dict ckpt).isEmpty) then
    Except.error (LoadError.strictLoadError (unexpected_keys model_dict ckpt)
      (missing_keys model_dict ckpt))
  else
    Except.ok (model_dict.map (fun p => (p.1, (lookupVal ckpt p.1).getD p.2)))

/-- The diagnostic loop of lines 258-262: one `print_rank_0` message per
checkpoint key, `Skip key:` for keys absent from the model's state dict and
`Loading key:` for the others. -/
def load_key_messages {V : Type} (ckpt model_dict : List (String × V)) : List String :=
  ckpt.map (fun p =>
    if (lookupVal model_dict p.1).isSome then "Loading key: " ++ p.1
    else "Skip key: " ++ p.1)

/-- The inference-only branch of `load_checkpoints` (lines 249-264) after the
weights file has been read: take the `module` sub-mapping, emit the
diagnostic messages, then call `load_state_dict` with the caller's `strict`
flag.  Returns the messages and the resulting model state. -/
def load_flat_checkpoint {V : Type} (model_dict : List (String × V))
    (ckpt : CheckpointFile V) (strict : Bool) :
    Except LoadError (List String × List (String × V)) :=
  let checkpoint := ckpt.module
  let msgs := load_key_messages checkpoint model_dict
  match load_state_dict model_dict checkpoint strict with
  | Except.error e => Except.error e
  | Except.ok d => Except.ok (msgs, d)

/-- Python `os.path.dirname`: everything up to the last path separator. -/
def dirname (p : String) : String :=
  String.intercalate "/" (p.splitOn "/").dropLast

/-- Python `os.path.basename`: everything after the last path separator. -/
def basename (p : String) : String :=
  ((p.splitOn "/").reverse).headD ""

/-- Modelled from the spec: `CheckpointHook.TRAINER_STATE_SUFFIX`, the
trainer-state file suffix constant of the checkpoint hook (that hook is not
part of this file); its exact text is immaterial to the claims. -/
def TRAINER_STATE_SUFFIX : String := "_trainer_state.pth"

/-- The file system and stored weight files visible to the load path:
directory and file existence tests, and the parsed content `torch.load`
would return for a path (none models FileNotFoundError). -/
structure FileSystem (V : Type) where
  isDir : String → Bool
  isFile : String → Bool
  torchFiles : String → Option (CheckpointFile V)

/-- Outcome of a successful `load_checkpoints` call: whether the trainer
state file existed and was loaded, whether restoration was delegated to the
DeepSpeed engine, and on the flat path the diagnostics and new model state. -/
structure LoadResult (V : Type) where
  meta_loaded : Bool
  engine_delegated : Bool
  messages : List String
  model_dict : Option (List (String × V))
deriving DecidableEq

/-- `DeepspeedHook.load_checkpoints` (lines 228-265).  The source's first
statement is `assert os.path.isdir(checkpoint_path_prefix)` (the parameter
is renamed `checkpoint_path` here); then the prefix is split into
`(dirname, basename)`, trainer state is loaded when the rank-qualified state
file exists, and restoration is either delegated to the engine (when
`trainer.model` is a DeepSpeedEngine, modelled by `engine_built`) or done by
reading the flat weights file `mp_rank_{rank:02d}_model_states.pt` from the
checkpoint directory. -/
def load_checkpoints {V : Type} (fs : FileSystem V) (mpu : MpuState)
    (checkpoint_path : String) (engine_built : Bool)
    (model_dict : List (String × V)) (load_all_state strict : Bool) :
    Except LoadError (LoadResult V) :=
  if !(fs.isDir checkpoint_path) then Except.error LoadError.assertionError
  else
    let _path := dirname checkpoint_path
    let _tag := basename checkpoint_path
    let train_state_file := checkpoint_path ++ rank_name mpu ++ TRAINER_STATE_SUFFIX
    let metaLoaded := fs.isFile train_state_file
    if engine_built then
      Except.ok { meta_loaded := metaLoaded, engine_delegated := true,
                  messages := [], model_dict := none }
    else
      match get_bin_file mpu with
      | Except.error _ => Except.error LoadError.mpuError
      | Except.ok bin_file =>
          match fs.torchFiles (checkpoint_path ++ "/" ++ bin_file) with
          | none => Except.error LoadError.fileNotFound
          | some ckpt =>
              match load_flat_checkpoint model_dict ckpt strict with
              | Except.error e => Except.error e
              | Except.ok (msgs, d) =>
                  Except.ok { meta_loaded := metaLoaded, engine_delegated := false,
                              messages := msgs, model_dict := some d }

/-! Helper lemmas about association-list lookup and assignment. -/

theorem lookupVal_setValue_self {V : Type} (es : List (String × V)) (k : String) (v : V) :
    lookupVal (setValue es k v) k = (lookupVal es k).map (fun _ => v) := by
  induction es with
  | nil => rfl
  | cons p rest ih =>
      obtain ⟨k', w⟩ := p
      by_cases h : k' = k <;> simp [setValue, lookupVal, h, ih]

theorem lookupVal_setValue_ne {V : Type} (es : List (String × V)) (k k' : String) (v : V)
    (h : k' ≠ k) : lookupVal (setValue es k v) k' = lookupVal es k' := by
  induction es with
  | nil => rfl
  | cons p rest ih =>
      obtain ⟨k'', w⟩ := p
      by_cases h1 : k'' = k
      · subst h1
        simp [setValue, lookupVal, Ne.symm h, ih]
      · by_cases h2 : k'' = k' <;> simp [setValue, lookupVal, h1, h2, ih, h]

theorem lookupVal_append_right {V : Type} (es : List (String × V)) (k : String) (v : V)
    (h : lookupVal es k = none) : lookupVal (es ++ [(k, v)]) k = some v := by
  induction es with
  | nil => simp [lookupVal]
  | cons p rest ih =>
      obtain ⟨k', w⟩ := p
      by_cases h1 : k' = k
      · simp [lookupVal, h1] at h
      · simp [lookupVal, h1] at h ⊢
        exact ih h

theorem lookupVal_setInsert_self {V : Type} (es : List (String × V)) (k : String) (v : V) :
    lookupVal (setInsert es k v) k = some v := by
  unfold setInsert
  by_cases h : (lookupVal es k).isSome
  · simp only [h, if_true]
    rw [lookupVal_setValue_self]
    obtain ⟨w, hw⟩ := Option.isSome_iff_exists.mp h
    simp [hw]
  · simp only [h, if_false]
    exact lookupVal_append_right es k v (Option.not_isSome_iff_eq_none.mp h)

/-! Helper lemmas about `fill_match`, `fill_only` and the finalization
pipeline. -/

theorem fill_match_stage (c : DSConfig) (k : String) (v : CVal) (m : Bool) :
    (fill_match c k v m).stage = c.stage := by
  unfold fill_match
  match h : getValue c k with
  | none => simp
  | some CVal.auto => simp
  | some (CVal.num q) => dsimp; split <;> rfl
  | some (CVal.str s) => dsimp; split <;> rfl
  | some (CVal.bool b) => dsimp; split <;> rfl

theorem fill_match_getValue_ne (c : DSConfig) (k k' : String) (v : CVal) (m : Bool)
    (h : k' ≠ k) : getValue (fill_match c k v m) k' = getValue c k' := by
  unfold fill_match
  match hv : getValue c k with
  | none => simp
  | some CVal.auto =>
      simp only [getValue]
      exact lookupVal_setValue_ne c.entries k k' v h
  | some (CVal.num q) => dsimp; split <;> rfl
  | some (CVal.str s) => dsimp; split <;> rfl
  | some (CVal.bool b) => dsimp; split <;> rfl

theorem fill_match_auto (c : DSConfig) (k : String) (v : CVal) (m : Bool)
    (h : getValue c k = some CVal.auto) :
    getValue (fill_match c k v m) k = some v := by
  unfold fill_match
  rw [h]
  simp only [getValue]
  rw [lookupVal_setValue_self]
  have : lookupVal c.entries k = some CVal.auto := h
  simp [this]

theorem fill_match_not_auto (c : DSConfig) (k : String) (v : CVal) (m : Bool)
    (h : getValue c k ≠ some CVal.auto) :
    (fill_match c k v m).entries = c.entries := by
  unfold fill_match
  match hv : getValue c k with
  | none => simp
  | some CVal.auto => exact absurd hv h
  | some (CVal.num q) => dsimp; split <;> rfl
  | some (CVal.str s) => dsimp; split <;> rfl
  | some (CVal.bool b) => dsimp; split <;> rfl

theorem fill_only_mismatches (c : DSConfig) (k : String) (v : CVal) :
    (fill_only c k v).mismatches = c.mismatches := by
  unfold fill_only fill_match
  match hv : getValue c k with
  | none => simp
  | some CVal.auto => simp
  | some (CVal.num q) => simp
  | some (CVal.str s) => simp
  | some (CVal.bool b) => simp

theorem fill_match_mismatches_sub (c : DSConfig) (k : String) (v : CVal) (m : Bool) :
    ∀ x ∈ (fill_match c k v m).mismatches, x ∈ c.mismatches ∨ x.key = k := by
  intro x hx
  unfold fill_match at hx
  match hv : getValue c k with
  | none => rw [hv] at hx; exact Or.inl hx
  | some CVal.auto => rw [hv] at hx; exact Or.inl hx
  | some (CVal.num q) =>
      rw [hv] at hx; dsimp at hx
      split at hx
      · simp at hx
        rcases hx with h1 | h1
        · exact Or.inl h1
        · subst h1; exact Or.inr rfl
      · exact Or.inl hx
  | some (CVal.str s) =>
      rw [hv] at hx; dsimp at hx
      split at hx
      · simp at hx
        rcases hx with h1 | h1
        · exact Or.inl h1
        · subst h1; exact Or.inr rfl
      · exact Or.inl hx
  | some (CVal.bool b) =>
      rw [hv] at hx; dsimp at hx
      split at hx
      · simp at hx
        rcases hx with h1 | h1
        · exact Or.inl h1
        · subst h1; exact Or.inr rfl
      · exact Or.inl hx

theorem fill_only_stage (c : DSConfig) (k : String) (v : CVal) :
    (fill_only c k v).stage = c.stage :=
  fill_match_stage c k v false

theorem fill_only_getValue_ne (c : DSConfig) (k k' : String) (v : CVal)
    (h : k' ≠ k) : getValue (fill_only c k v) k' = getValue c k' :=
  fill_match_getValue_ne c k k' v false h

theorem fill_only_auto (c : DSConfig) (k : String) (v : CVal)
    (h : getValue c k = some CVal.auto) :
    getValue (fill_only c k v) k = some v :=
  fill_match_auto c k v false h

theorem is_auto_getValue (c : DSConfig) (k : String)
    (h : is_auto c k = true) : getValue c k = some CVal.auto := by
  unfold is_auto at h
  exact eq_of_beq h

theorem is_zero3_of_stage_eq (c c' : DSConfig) (h : c'.stage = c.stage) :
    is_zero3 c' = is_zero3 c := by
  unfold is_zero3
  rw [h]

/-! Lemmas about `fill_hidden`. -/

theorem fill_hidden_stage (c : DSConfig) (h : ℤ) :
    (fill_hidden c h).stage = c.stage := by
  unfold fill_hidden
  dsimp only
  split
  · rw [fill_only_stage, fill_only_stage, fill_only_stage]
  · rw [fill_only_stage]

theorem fill_hidden_mismatches (c : DSConfig) (h : ℤ) :
    (fill_hidden c h).mismatches = c.mismatches := by
  unfold fill_hidden
  dsimp only
  split
  · rw [fill_only_mismatches, fill_only_mismatches, fill_only_mismatches]
  · rw [fill_only_mismatches]

theorem fill_hidden_getValue_ne (c : DSConfig) (h : ℤ) (k : String)
    (h1 : k ≠ "zero_optimization.reduce_bucket_size")
    (h2 : k ≠ "zero_optimization.stage3_prefetch_bucket_size")
    (h3 : k ≠ "zero_optimization.stage3_param_persistence_threshold") :
    getValue (fill_hidden c h) k = getValue c k := by
  unfold fill_hidden
  dsimp only
  split
  · rw [fill_only_getValue_ne _ _ _ _ h3, fill_only_getValue_ne _ _ _ _ h2,
      fill_only_getValue_ne _ _ _ _ h1]
  · rw [fill_only_getValue_ne _ _ _ _ h1]

theorem fill_hidden_reduce (c : DSConfig) (h : ℤ)
    (ha : is_auto c "zero_optimization.reduce_bucket_size" = true) :
    getValue (fill_hidden c h) "zero_optimization.reduce_bucket_size"
      = some (CVal.num ((h : ℚ) * (h : ℚ))) := by
  have hv := is_auto_getValue c _ ha
  have hfirst : getValue
      (fill_only c "zero_optimization.reduce_bucket_size" (CVal.num ((h : ℚ) * (h : ℚ))))
      "zero_optimization.reduce_bucket_size" = some (CVal.num ((h : ℚ) * (h : ℚ))) :=
    fill_only_auto c _ _ hv
  unfold fill_hidden
  dsimp only
  split
  · rw [fill_only_getValue_ne _ _ _ _ (by decide), fill_only_getValue_ne _ _ _ _ (by decide)]
    exact hfirst
  · exact hfirst

theorem fill_hidden_prefetch (c : DSConfig) (h : ℤ)
    (hz : is_zero3 c = true)
    (ha : is_auto c "zero_optimization.stage3_prefetch_bucket_size" = true) :
    getValue (fill_hidden c h) "zero_optimization.stage3_prefetch_bucket_size"
      = some (CVal.num ((9 / 10 : ℚ) * (h : ℚ) * (h : ℚ))) := by
  have hv := is_auto_getValue c _ ha
  unfold fill_hidden
  dsimp only
  rw [is_zero3_of_stage_eq _ _ (fill_only_stage c _ _), hz, if_pos rfl]
  rw [fill_only_getValue_ne _ _ _ _ (by decide)]
  apply fill_only_auto
  rw [fill_only_getValue_ne _ _ _ _ (by decide)]
  exact hv

theorem fill_hidden_threshold (c : DSConfig) (h : ℤ)
    (hz : is_zero3 c = true)
    (ha : is_auto c "zero_optimization.stage3_param_persistence_threshold" = true) :
    getValue (fill_hidden c h) "zero_optimization.stage3_param_persistence_threshold"
      = some (CVal.num ((10 : ℚ) * (h : ℚ))) := by
  have hv := is_auto_getValue c _ ha
  unfold fill_hidden
  dsimp only
  rw [is_zero3_of_stage_eq _ _ (fill_only_stage c _ _), hz, if_pos rfl]
  apply fill_only_auto
  rw [fill_only_getValue_ne _ _ _ _ (by decide), fill_only_getValue_ne _ _ _ _ (by decide)]
  exact hv

theorem fill_hidden_not_zero3 (c : DSConfig) (h : ℤ)
    (hz : is_zero3 c = false) :
    fill_hidden c h = fill_only c "zero_optimization.reduce_bucket_size"
      (CVal.num ((h : ℚ) * (h : ℚ))) := by
  unfold fill_hidden
  dsimp only
  rw [is_zero3_of_stage_eq _ _ (fill_only_stage c _ _), hz]
  simp

/-! Lemmas about `hidden_part`, `scheduler_fills` and
`trainer_config_finalize`. -/

theorem hidden_part_no_auto (c : DSConfig) (mc : ModelConfig)
    (h : hidden_size_based_keys.filter (fun k => is_auto c k) = []) :
    hidden_part c mc = Except.ok c := by
  unfold hidden_part
  rw [h]
  rfl

theorem hidden_part_resolved (c : DSConfig) (mc : ModelConfig) (h : ℤ)
    (hne : hidden_size_based_keys.filter (fun k => is_auto c k) ≠ [])
    (hres : resolve_hidden_size mc (hidden_size_based_keys.filter (fun k => is_auto c k))
      = Except.ok h) :
    hidden_part c mc = Except.ok (fill_hidden c h) := by
  unfold hidden_part
  rw [if_pos (List.length_pos.mpr hne), hres]
  rfl

theorem hidden_part_ok_cases (c : DSConfig) (mc : ModelConfig) (c1 : DSConfig)
    (hok : hidden_part c mc = Except.ok c1) :
    c1 = c ∨ ∃ h : ℤ,
      resolve_hidden_size mc (hidden_size_based_keys.filter (fun k => is_auto c k))
        = Except.ok h ∧ c1 = fill_hidden c h := by
  unfold hidden_part at hok
  split at hok
  · match hres : resolve_hidden_size mc (hidden_size_based_keys.filter (fun k => is_auto c k)) with
    | Except.ok h =>
        rw [hres] at hok
        simp only [Except.map] at hok
        exact Or.inr ⟨h, rfl, (Except.ok.inj hok).symm⟩
    | Except.error e =>
        rw [hres] at hok
        simp only [Except.map] at hok
        exact absurd hok (by simp)
  · exact Or.inl (Except.ok.inj hok).symm

theorem hidden_part_mismatches (c : DSConfig) (mc : ModelConfig) (c1 : DSConfig)
    (hok : hidden_part c mc = Except.ok c1) :
    c1.mismatches = c.mismatches := by
  rcases hidden_part_ok_cases c mc c1 hok with h | ⟨h, _, hh⟩
  · rw [h]
  · rw [hh, fill_hidden_mismatches]

theorem hidden_part_getValue_sched (c : DSConfig) (mc : ModelConfig) (c1 : DSConfig)
    (hok : hidden_part c mc = Except.ok c1) (k : String)
    (h1 : k ≠ "zero_optimization.reduce_bucket_size")
    (h2 : k ≠ "zero_optimization.stage3_prefetch_bucket_size")
    (h3 : k ≠ "zero_optimization.stage3_param_persistence_threshold") :
    getValue c1 k = getValue c k := by
  rcases hidden_part_ok_cases c mc c1 hok with h | ⟨h, _, hh⟩
  · rw [h]
  · rw [hh, fill_hidden_getValue_ne _ _ _ h1 h2 h3]

theorem scheduler_fills_getValue_ne (c : DSConfig) (args : TrainArgs) (n : ℤ) (k : String)
    (h1 : k ≠ "scheduler.params.total_num_steps")
    (h2 : k ≠ "scheduler.params.warmup_num_steps") :
    getValue (scheduler_fills c args n) k = getValue c k := by
  unfold scheduler_fills
  dsimp only
  rw [fill_match_getValue_ne _ _ _ _ _ h2, fill_match_getValue_ne _ _ _ _ _ h1]

theorem scheduler_fills_warmup (c : DSConfig) (args : TrainArgs) (n : ℤ)
    (ha : is_auto c "scheduler.params.warmup_num_steps" = true) :
    getValue (scheduler_fills c args n) "scheduler.params.warmup_num_steps"
      = some (CVal.num
        ((resolvedWarmupSteps (args.warmup_steps.getD 0) (args.warmup_ratio.getD 0) n : ℤ)
          : ℚ)) := by
  have hv := is_auto_getValue c _ ha
  unfold scheduler_fills
  dsimp only
  apply fill_match_auto
  rw [fill_match_getValue_ne _ _ _ _ _ (by decide)]
  exact hv

theorem finalize_ok_elim (c : DSConfig) (mc : ModelConfig) (args : TrainArgs) (n : ℤ)
    (c' : DSConfig) (hok : trainer_config_finalize c mc args n = Except.ok c') :
    ∃ c1, hidden_part c mc = Except.ok c1 ∧ c' = scheduler_fills c1 args n ∧
      (scheduler_fills c1 args n).mismatches = [] := by
  unfold trainer_config_finalize at hok
  match hh : hidden_part c mc with
  | Except.error e => rw [hh] at hok; exact absurd hok (by simp)
  | Except.ok c1 =>
      rw [hh] at hok
      dsimp only at hok
      split at hok
      · exact absurd hok (by simp)
      · next hlen =>
          refine ⟨c1, rfl, (Except.ok.inj hok).symm, ?_⟩
          exact List.length_eq_zero.mp (Nat.eq_zero_of_not_pos hlen)

theorem trainer_config_finalize_eq (c : DSConfig) (mc : ModelConfig) (args : TrainArgs)
    (n : ℤ) :
    trainer_config_finalize c mc args n =
      match hidden_part c mc with
      | Except.error e => Except.error e
      | Except.ok c1 =>
          if (scheduler_fills c1 args n).mismatches.length > 0 then
            Except.error (FinalizeError.mismatchError (scheduler_fills c1 args n).mismatches)
          else Except.ok (scheduler_fills c1 args n) := rfl

theorem resolve_hidden_size_error_iff (mc : ModelConfig) (ks ks' : List String) :
    resolve_hidden_size mc ks' = Except.error (FinalizeError.hiddenSizeError ks) ↔
      mc.hidden_size = none ∧ mc.hidden_sizes = none ∧ ks = ks' := by
  cases h1 : mc.hidden_size with
  | some h => simp [resolve_hidden_size, h1]
  | none =>
      cases h2 : mc.hidden_sizes with
      | some hs =>
          cases h3 : hs.max? with
          | some m => simp [resolve_hidden_size, h1, h2, h3]
          | none => simp [resolve_hidden_size, h1, h2, h3]
      | none => simp [resolve_hidden_size, h1, h2, eq_comm]

theorem hidden_part_error_iff (c : DSConfig) (mc : ModelConfig) (e : FinalizeError) :
    hidden_part c mc = Except.error e ↔
      (hidden_size_based_keys.filter (fun k => is_auto c k) ≠ [] ∧
       resolve_hidden_size mc (hidden_size_based_keys.filter (fun k => is_auto c k))
         = Except.error e) := by
  unfold hidden_part
  split
  · next hlen =>
      have hne : hidden_size_based_keys.filter (fun k => is_auto c k) ≠ [] := by
        intro h
        rw [h] at hlen
        exact absurd hlen (by simp)
      cases hres : resolve_hidden_size mc (hidden_size_based_keys.filter (fun k => is_auto c k)) with
      | ok h => simp [hres, Except.map, hne]
      | error e2 => simp [hres, Except.map, hne]
  · next hlen =>
      have hempty : hidden_size_based_keys.filter (fun k => is_auto c k) = [] := by
        rcases List.eq_nil_or_concat (hidden_size_based_keys.filter (fun k => is_auto c k))
          with h | ⟨l, a, h⟩
        · exact h
        · exfalso
          apply hlen
          rw [h]
          simp
      simp [hempty]

theorem fill_match_none (c : DSConfig) (k : String) (v : CVal) (m : Bool)
    (h : getValue c k = none) : fill_match c k v m = c := by
  unfold fill_match
  rw [h]

theorem fill_only_noop (c : DSConfig) (k : String) (v w : CVal)
    (hw : getValue c k = some w) (hwa : w ≠ CVal.auto) :
    fill_only c k v = c := by
  unfold fill_only fill_match
  rw [hw]
  cases w with
  | auto => exact absurd rfl hwa
  | num q => simp
  | str s => simp
  | bool b => simp

theorem fill_match_getValue_not_auto (c : DSConfig) (k : String) (v : CVal) (m : Bool)
    (h : getValue c k ≠ some CVal.auto) (k' : String) :
    getValue (fill_match c k v m) k' = getValue c k' := by
  unfold getValue
  rw [fill_match_not_auto c k v m h]

theorem fill_only_idem (d : DSConfig) (k : String) (v : CVal) (hv : v ≠ CVal.auto) :
    fill_only (fill_only d k v) k v = fill_only d k v := by
  cases hval : getValue d k with
  | none =>
      have h1 : fill_only d k v = d := fill_match_none d k v false hval
      rw [h1, h1]
  | some w =>
      cases w with
      | auto => exact fill_only_noop _ k v v (fill_only_auto d k v hval) hv
      | num q =>
          have h1 : fill_only d k v = d := fill_only_noop d k v _ hval (by simp)
          rw [h1, h1]
      | str s =>
          have h1 : fill_only d k v = d := fill_only_noop d k v _ hval (by simp)
          rw [h1, h1]
      | bool b =>
          have h1 : fill_only d k v = d := fill_only_noop d k v _ hval (by simp)
          rw [h1, h1]

theorem finalize_of_hidden_error (c : DSConfig) (mc : ModelConfig) (args : TrainArgs)
    (n : ℤ) (e : FinalizeError) (hh : hidden_part c mc = Except.error e) :
    trainer_config_finalize c mc args n = Except.error e := by
  rw [trainer_config_finalize_eq, hh]

theorem finalize_of_hidden_ok (c : DSConfig) (mc : ModelConfig) (args : TrainArgs)
    (n : ℤ) (c1 : DSConfig) (hh : hidden_part c mc = Except.ok c1) :
    trainer_config_finalize c mc args n =
      (if (scheduler_fills c1 args n).mismatches.length > 0 then
        Except.error (FinalizeError.mismatchError (scheduler_fills c1 args n).mismatches)
      else Except.ok (scheduler_fills c1 args n)) := by
  rw [trainer_config_finalize_eq, hh]

/-! The claims. -/

/-- C1: in `trainer_config_finalize`, when at least one hidden-size-dependent
key is `auto` and the model config resolves to a hidden dimension `h`
(`hidden_size` if present, else the maximum of `hidden_sizes`), the key
`zero_optimization.reduce_bucket_size` is filled with `h*h`, and — only when
ZeRO stage 3 is active — `zero_optimization.stage3_prefetch_bucket_size` is
filled with `0.9*h*h` and `zero_optimization.stage3_param_persistence_threshold`
with `10*h`; when stage 3 is not active the latter two keys are untouched. -/
theorem c1_hidden_size_fill (c : DSConfig) (mc : ModelConfig) (args : TrainArgs) (n : ℤ)
    (h : ℤ) (c' : DSConfig)
    (hauto : hidden_size_based_keys.filter (fun k => is_auto c k) ≠ [])
    (hres : resolve_hidden_size mc (hidden_size_based_keys.filter (fun k => is_auto c k))
      = Except.ok h)
    (hok : trainer_config_finalize c mc args n = Except.ok c') :
    (is_auto c "zero_optimization.reduce_bucket_size" = true →
      getValue c' "zero_optimization.reduce_bucket_size"
        = some (CVal.num ((h : ℚ) * (h : ℚ)))) ∧
    (is_zero3 c = true →
      (is_auto c "zero_optimization.stage3_prefetch_bucket_size" = true →
        getValue c' "zero_optimization.stage3_prefetch_bucket_size"
          = some (CVal.num ((9 / 10 : ℚ) * (h : ℚ) * (h : ℚ)))) ∧
      (is_auto c "zero_optimization.stage3_param_persistence_threshold" = true →
        getValue c' "zero_optimization.stage3_param_persistence_threshold"
          = some (CVal.num ((10 : ℚ) * (h : ℚ))))) ∧
    (is_zero3 c = false →
      getValue c' "zero_optimization.stage3_prefetch_bucket_size"
        = getValue c "zero_optimization.stage3_prefetch_bucket_size" ∧
      getValue c' "zero_optimization.stage3_param_persistence_threshold"
        = getValue c "zero_optimization.stage3_param_persistence_threshold") := by
  obtain ⟨c1, hh, hc', hmz⟩ := finalize_ok_elim c mc args n c' hok
  rw [hidden_part_resolved c mc h hauto hres] at hh
  obtain rfl : c1 = fill_hidden c h := (Except.ok.inj hh).symm
  subst hc'
  refine ⟨?_, ?_, ?_⟩
  · intro ha
    rw [scheduler_fills_getValue_ne _ _ _ _ (by decide) (by decide)]
    exact fill_hidden_reduce c h ha
  · intro hz
    constructor
    · intro ha
      rw [scheduler_fills_getValue_ne _ _ _ _ (by decide) (by decide)]
      exact fill_hidden_prefetch c h hz ha
    · intro ha
      rw [scheduler_fills_getValue_ne _ _ _ _ (by decide) (by decide)]
      exact fill_hidden_threshold c h hz ha
  · intro hz
    constructor
    · rw [scheduler_fills_getValue_ne _ _ _ _ (by decide) (by decide),
        fill_hidden_not_zero3 c h hz, fill_only_getValue_ne _ _ _ _ (by decide)]
    · rw [scheduler_fills_getValue_ne _ _ _ _ (by decide) (by decide),
        fill_hidden_not_zero3 c h hz, fill_only_getValue_ne _ _ _ _ (by decide)]

/-- Witness for C1: a config with all three hidden-size keys `auto` at ZeRO
stage 3 and a model with `hidden_size = 4` gets its reduce bucket size filled
with `4 * 4`. -/
theorem c1_hidden_size_fill_witness :
    getValue
      ⟨[("zero_optimization.reduce_bucket_size",
          CVal.num (((4 : ℤ) : ℚ) * ((4 : ℤ) : ℚ))),
        ("zero_optimization.stage3_prefetch_bucket_size",
          CVal.num ((9 / 10 : ℚ) * ((4 : ℤ) : ℚ) * ((4 : ℤ) : ℚ))),
        ("zero_optimization.stage3_param_persistence_threshold",
          CVal.num ((10 : ℚ) * ((4 : ℤ) : ℚ)))], [], 3⟩
      "zero_optimization.reduce_bucket_size"
      = some (CVal.num (((4 : ℤ) : ℚ) * ((4 : ℤ) : ℚ))) :=
  (c1_hidden_size_fill
    ⟨[("zero_optimization.reduce_bucket_size", CVal.auto),
      ("zero_optimization.stage3_prefetch_bucket_size", CVal.auto),
      ("zero_optimization.stage3_param_persistence_threshold", CVal.auto)], [], 3⟩
    ⟨some 4, none⟩ ⟨none, none⟩ 0 4
    ⟨[("zero_optimization.reduce_bucket_size",
        CVal.num (((4 : ℤ) : ℚ) * ((4 : ℤ) : ℚ))),
      ("zero_optimization.stage3_prefetch_bucket_size",
        CVal.num ((9 / 10 : ℚ) * ((4 : ℤ) : ℚ) * ((4 : ℤ) : ℚ))),
      ("zero_optimization.stage3_param_persistence_threshold",
        CVal.num ((10 : ℚ) * ((4 : ℤ) : ℚ)))], [], 3⟩
    (by decide) (by rfl) (by rfl)).1 (by decide)

/-- C2: `trainer_config_finalize` raises the configuration error naming
exactly the unresolved hidden-size-dependent keys iff at least one of the
three keys is `auto` and the model config exposes neither `hidden_size` nor
`hidden_sizes`; when no such key is `auto`, the model's hidden-size fields
are never consulted (the outcome is the same for every model config). -/
theorem c2_hidden_size_error (c : DSConfig) (args : TrainArgs) (n : ℤ) :
    (∀ (mc : ModelConfig) (ks : List String),
      trainer_config_finalize c mc args n
          = Except.error (FinalizeError.hiddenSizeError ks) ↔
        (hidden_size_based_keys.filter (fun k => is_auto c k) ≠ [] ∧
         mc.hidden_size = none ∧ mc.hidden_sizes = none ∧
         ks = hidden_size_based_keys.filter (fun k => is_auto c k))) ∧
    (hidden_size_based_keys.filter (fun k => is_auto c k) = [] →
      ∀ mc mc' : ModelConfig,
        trainer_config_finalize c mc args n = trainer_config_finalize c mc' args n) := by
  constructor
  · intro mc ks
    cases hh : hidden_part c mc with
    | error e =>
        rw [finalize_of_hidden_error c mc args n e hh]
        obtain ⟨hne, hres⟩ := (hidden_part_error_iff c mc e).mp hh
        constructor
        · intro he
          have he' : e = FinalizeError.hiddenSizeError ks := Except.error.inj he
          subst he'
          obtain ⟨h1, h2, h3⟩ := (resolve_hidden_size_error_iff mc ks _).mp hres
          exact ⟨hne, h1, h2, h3⟩
        · rintro ⟨-, h1, h2, rfl⟩
          rw [(resolve_hidden_size_error_iff mc _ _).mpr ⟨h1, h2, rfl⟩] at hres
          rw [Except.error.inj hres]
    | ok c1 =>
        rw [finalize_of_hidden_ok c mc args n c1 hh]
        constructor
        · intro he
          exfalso
          by_cases hlen : (scheduler_fills c1 args n).mismatches.length > 0
          · rw [if_pos hlen] at he
            exact absurd (Except.error.inj he) (by simp)
          · rw [if_neg hlen] at he
            exact absurd he (by simp)
        · rintro ⟨hne, h1, h2, rfl⟩
          exfalso
          have herr : hidden_part c mc = Except.error
              (FinalizeError.hiddenSizeError
                (hidden_size_based_keys.filter (fun k => is_auto c k))) :=
            (hidden_part_error_iff c mc _).mpr
              ⟨hne, (resolve_hidden_size_error_iff mc _ _).mpr ⟨h1, h2, rfl⟩⟩
          rw [hh] at herr
          exact absurd herr (by simp)
  · intro hempty mc mc'
    rw [trainer_config_finalize_eq, trainer_config_finalize_eq,
      hidden_part_no_auto c mc hempty, hidden_part_no_auto c mc' hempty]

/-- Witness for C2: with `zero_optimization.reduce_bucket_size` set to
`auto` and a model config exposing neither hidden-size field, finalization
raises the configuration error naming exactly that key. -/
theorem c2_hidden_size_error_witness :
    trainer_config_finalize
        ⟨[("zero_optimization.reduce_bucket_size", CVal.auto)], [], 0⟩
        ⟨none, none⟩ ⟨none, none⟩ 7
      = Except.error
          (FinalizeError.hiddenSizeError ["zero_optimization.reduce_bucket_size"]) :=
  ((c2_hidden_size_error
      ⟨[("zero_optimization.reduce_bucket_size", CVal.auto)], [], 0⟩
      ⟨none, none⟩ 7).1 ⟨none, none⟩
      ["zero_optimization.reduce_bucket_size"]).mpr
    ⟨by decide, rfl, rfl, by decide⟩

/-- C3: fill is a no-op on non-placeholder targets — a fill on a key that is
not currently `auto` leaves the config entries unchanged; applying
`fill_only` twice with the same (non-placeholder) value is the same as
applying it once; and an explicit value pre-set in
`zero_optimization.reduce_bucket_size` survives finalization unchanged. -/
theorem c3_fill_preserves_explicit (c : DSConfig) (v : CVal) (z : ℚ)
    (hv : v ≠ CVal.auto)
    (hpre : getValue c "zero_optimization.reduce_bucket_size" = some (CVal.num z)) :
    (∀ (d : DSConfig) (k : String) (w : CVal) (m : Bool),
      getValue d k ≠ some CVal.auto → (fill_match d k w m).entries = d.entries) ∧
    (∀ (d : DSConfig) (k : String), fill_only (fill_only d k v) k v = fill_only d k v) ∧
    (∀ (mc : ModelConfig) (args : TrainArgs) (n : ℤ) (c' : DSConfig),
      trainer_config_finalize c mc args n = Except.ok c' →
      getValue c' "zero_optimization.reduce_bucket_size" = some (CVal.num z)) := by
  have hna : getValue c "zero_optimization.reduce_bucket_size" ≠ some CVal.auto := by
    rw [hpre]
    simp
  refine ⟨fun d k w m h => fill_match_not_auto d k w m h,
    fun d k => fill_only_idem d k v hv, ?_⟩
  intro mc args n c' hok
  obtain ⟨c1, hh, hc', -⟩ := finalize_ok_elim c mc args n c' hok
  subst hc'
  rw [scheduler_fills_getValue_ne _ _ _ _ (by decide) (by decide)]
  rcases hidden_part_ok_cases c mc c1 hh with rfl | ⟨h, -, rfl⟩
  · exact hpre
  · unfold fill_hidden
    dsimp only
    split
    · rw [fill_only_getValue_ne _ _ _ _ (by decide), fill_only_getValue_ne _ _ _ _ (by decide),
        fill_only, fill_match_getValue_not_auto c _ _ _ hna]
      exact hpre
    · rw [fill_only, fill_match_getValue_not_auto c _ _ _ hna]
      exact hpre

/-- Witness for C3: a config pre-setting `zero_optimization.reduce_bucket_size`
to the integer 12345 still holds 12345 after finalization. -/
theorem c3_fill_preserves_explicit_witness :
    getValue ⟨[("zero_optimization.reduce_bucket_size", CVal.num 12345)], [], 0⟩
      "zero_optimization.reduce_bucket_size" = some (CVal.num 12345) :=
  (c3_fill_preserves_explicit
      ⟨[("zero_optimization.reduce_bucket_size", CVal.num 12345)], [], 0⟩
      (CVal.num 1) 12345 (by simp) (by rfl)).2.2
    ⟨some 4, none⟩ ⟨none, none⟩ 5
    ⟨[("zero_optimization.reduce_bucket_size", CVal.num 12345)], [], 0⟩ (by rfl)

/-- C4: when `scheduler.params.warmup_num_steps` is `auto`, finalization
fills it with the resolved warmup step count, which equals the explicit
`warmup_steps` when that is positive and `ceil(num_training_steps *
warmup_ratio)` otherwise; in particular with ratio 1/10 and 97 total steps
the resolved count is 10, and an explicit count of 5 ignores the ratio. -/
theorem c4_warmup_steps (c : DSConfig) (mc : ModelConfig) (args : TrainArgs) (n : ℤ)
    (c' : DSConfig)
    (hauto : is_auto c "scheduler.params.warmup_num_steps" = true)
    (hok : trainer_config_finalize c mc args n = Except.ok c') :
    getValue c' "scheduler.params.warmup_num_steps"
      = some (CVal.num
        ((resolvedWarmupSteps (args.warmup_steps.getD 0) (args.warmup_ratio.getD 0) n
          : ℤ) : ℚ)) ∧
    (∀ ws r, ws > 0 → resolvedWarmupSteps ws r n = ws) ∧
    (∀ ws r, ¬ ws > 0 → resolvedWarmupSteps ws r n = ⌈(n : ℚ) * r⌉) ∧
    resolvedWarmupSteps 0 (1 / 10) 97 = 10 ∧
    (∀ r : ℚ, resolvedWarmupSteps 5 r 97 = 5) := by
  refine ⟨?_, fun ws r hw => if_pos hw, fun ws r hw => if_neg hw, ?_, fun r => rfl⟩
  · obtain ⟨c1, hh, hc', -⟩ := finalize_ok_elim c mc args n c' hok
    subst hc'
    apply scheduler_fills_warmup
    have hgv : getValue c1 "scheduler.params.warmup_num_steps"
        = getValue c "scheduler.params.warmup_num_steps" :=
      hidden_part_getValue_sched c mc c1 hh _ (by decide) (by decide) (by decide)
    unfold is_auto at hauto ⊢
    rw [hgv]
    exact hauto
  · unfold resolvedWarmupSteps
    rw [if_neg (by norm_num), Int.ceil_eq_iff] <;> norm_num

/-- Witness for C4: a config whose warmup step key is `auto`, with no
explicit warmup step count and ratio 1/10 over 97 steps, ends with the key
filled by the resolved warmup count; the concrete evaluations are included. -/
theorem c4_warmup_steps_witness :
    getValue
        ⟨[("scheduler.params.warmup_num_steps",
            CVal.num ((resolvedWarmupSteps ((Option.none).getD 0)
              ((some (1 / 10 : ℚ)).getD 0) 97 : ℤ) : ℚ))], [], 0⟩
        "scheduler.params.warmup_num_steps"
      = some (CVal.num ((resolvedWarmupSteps ((Option.none).getD 0)
          ((some (1 / 10 : ℚ)).getD 0) 97 : ℤ) : ℚ)) ∧
    resolvedWarmupSteps 0 (1 / 10) 97 = 10 ∧ resolvedWarmupSteps 5 (1 / 10) 97 = 5 := by
  have h := c4_warmup_steps
    ⟨[("scheduler.params.warmup_num_steps", CVal.auto)], [], 0⟩
    ⟨some 4, none⟩ ⟨none, some (1 / 10 : ℚ)⟩ 97
    ⟨[("scheduler.params.warmup_num_steps",
        CVal.num ((resolvedWarmupSteps ((Option.none).getD 0)
          ((some (1 / 10 : ℚ)).getD 0) 97 : ℤ) : ℚ))], [], 0⟩
    (by decide) (by rfl)
  exact ⟨h.1, h.2.2.2.1, h.2.2.2.2 (1 / 10)⟩

/-- C5: after the hidden-size part succeeds, finalization processes both
scheduler fields; it raises the single aggregated mismatch error carrying
the full recorded mismatch list iff at least one mismatch was recorded, it
succeeds otherwise, and every recorded mismatch names one of the two
scheduler keys. -/
theorem c5_aggregated_mismatch (c : DSConfig) (mc : ModelConfig) (args : TrainArgs)
    (n : ℤ) (c1 : DSConfig)
    (hm : c.mismatches = [])
    (hh : hidden_part c mc = Except.ok c1) :
    ((scheduler_fills c1 args n).mismatches ≠ [] →
      trainer_config_finalize c mc args n
        = Except.error (FinalizeError.mismatchError (scheduler_fills c1 args n).mismatches)) ∧
    ((scheduler_fills c1 args n).mismatches = [] →
      trainer_config_finalize c mc args n = Except.ok (scheduler_fills c1 args n)) ∧
    (∀ x ∈ (scheduler_fills c1 args n).mismatches,
      x.key = "scheduler.params.total_num_steps" ∨
      x.key = "scheduler.params.warmup_num_steps") := by
  refine ⟨?_, ?_, ?_⟩
  · intro hne
    rw [finalize_of_hidden_ok c mc args n c1 hh, if_pos (List.length_pos.mpr hne)]
  · intro he
    have hnl : ¬ (scheduler_fills c1 args n).mismatches.length > 0 := by
      rw [he]
      simp
    rw [finalize_of_hidden_ok c mc args n c1 hh, if_neg hnl]
  · intro x hx
    have hc1 : c1.mismatches = [] := by
      rw [hidden_part_mismatches c mc c1 hh, hm]
    unfold scheduler_fills at hx
    dsimp only at hx
    rcases fill_match_mismatches_sub _ _ _ _ x hx with hx1 | hk
    · rcases fill_match_mismatches_sub _ _ _ _ x hx1 with hx2 | hk
      · rw [hc1] at hx2
        exact absurd hx2 (List.not_mem_nil x)
      · exact Or.inl hk
    · exact Or.inr hk

/-- Witness for C5: pre-setting `scheduler.params.total_num_steps` to 5 while
the computed total step count is 7 makes finalization fail with the single
aggregated error naming that key. -/
theorem c5_aggregated_mismatch_witness :
    trainer_config_finalize
        ⟨[("scheduler.params.total_num_steps", CVal.num 5)], [], 0⟩
        ⟨some 4, none⟩ ⟨none, none⟩ 7
      = Except.error (FinalizeError.mismatchError
          [⟨"scheduler.params.total_num_steps", CVal.num 5, CVal.num (((7 : ℤ)) : ℚ)⟩]) :=
  (c5_aggregated_mismatch
      ⟨[("scheduler.params.total_num_steps", CVal.num 5)], [], 0⟩
      ⟨some 4, none⟩ ⟨none, none⟩ 7
      ⟨[("scheduler.params.total_num_steps", CVal.num 5)], [], 0⟩
      rfl (by rfl)).1 (by decide)

/-- Counterexample for C6: with one epoch, 5 iterations per epoch and
gradient accumulation 2, `before_run` computes `ceil(1 * (5 // 2)) = 2`
total steps while the claimed formula `ceil(1 * 5/2)` gives 3. -/
theorem c6_total_steps_counterexample :
    before_run_max_steps 1 5 2 = 2 ∧ spec_max_steps 1 5 2 = 3 ∧
    before_run_max_steps 1 5 2 ≠ spec_max_steps 1 5 2 := by
  have h1 : before_run_max_steps 1 5 2 = 2 := by
    unfold before_run_max_steps num_update_steps_per_epoch
    rw [Int.ceil_eq_iff] <;> norm_num
  have h2 : spec_max_steps 1 5 2 = 3 := by
    unfold spec_max_steps
    rw [Int.ceil_eq_iff] <;> norm_num
  refine ⟨h1, h2, ?_⟩
  rw [h1, h2]
  decide

/-- C6 (amended): the total number of optimization steps computed in
`before_run` equals `max_epochs * (iters_per_epoch // ga)` with floor
division (`num_update_steps_per_epoch` truncates before the ceiling is
taken); it agrees with the spec's `ceil(max_epochs * iters_per_epoch / ga)`
exactly on inputs where `ga` divides `iters_per_epoch`. -/
theorem c6_total_steps_amended (e iters ga : ℕ) (hga : 0 < ga) :
    before_run_max_steps e iters ga = ((e * (iters / ga) : ℕ) : ℤ) ∧
    (ga ∣ iters → before_run_max_steps e iters ga = spec_max_steps e iters ga) := by
  have hcast : ((e : ℚ) * ((iters / ga : ℕ) : ℚ)) = ((e * (iters / ga) : ℕ) : ℚ) := by
    push_cast
    ring
  constructor
  · unfold before_run_max_steps num_update_steps_per_epoch
    rw [hcast]
    exact Int.ceil_natCast _
  · intro hdvd
    unfold before_run_max_steps num_update_steps_per_epoch spec_max_steps
    rw [Nat.cast_div hdvd (by positivity)]

/-- Witness for C6 (amended): at one epoch, 5 iterations and accumulation 2
the computed total step count is `1 * (5 // 2)`. -/
theorem c6_total_steps_amended_witness :
    before_run_max_steps 1 5 2 = ((1 * (5 / 2) : ℕ) : ℤ) :=
  (c6_total_steps_amended 1 5 2 (by decide)).1

/-- C7: `deepspeed_optim_sched` passes `None` for the optimizer and leaves
the untested-optimizer flag unset when the config has an `optimizer` block;
without such a block it passes the trainer's optimizer through and sets
`zero_allow_untested_optimizer` to true; the trainer's scheduler is passed
through exactly when the config lacks a `scheduler` block. -/
theorem c7_optim_sched_delegation {α β : Type} (c : DSConfig) (topt : α) (tsched : β) :
    (hasSection c "optimizer" = true →
      (deepspeed_optim_sched c topt tsched).1 = none ∧
      (deepspeed_optim_sched c topt tsched).2.2 = c) ∧
    (hasSection c "optimizer" = false →
      (deepspeed_optim_sched c topt tsched).1 = some topt ∧
      getValue (deepspeed_optim_sched c topt tsched).2.2 "zero_allow_untested_optimizer"
        = some (CVal.bool true)) ∧
    ((deepspeed_optim_sched c topt tsched).2.1 = some tsched ↔
      hasSection c "scheduler" = false) := by
  refine ⟨?_, ?_, ?_⟩
  · intro hopt
    unfold deepspeed_optim_sched
    rw [hopt]
    exact ⟨rfl, rfl⟩
  · intro hopt
    unfold deepspeed_optim_sched
    rw [hopt]
    refine ⟨rfl, ?_⟩
    exact lookupVal_setInsert_self c.entries _ _
  · unfold deepspeed_optim_sched
    cases hs : hasSection c "scheduler" with
    | true => simp
    | false => simp

/-- Witness for C7: a config with no `optimizer` and no `scheduler` block
passes both trainer objects through and sets the untested-optimizer flag. -/
theorem c7_optim_sched_delegation_witness :
    (deepspeed_optim_sched (⟨[], [], 0⟩ : DSConfig) (0 : ℕ) (1 : ℕ)).1 = some 0 ∧
    getValue (deepspeed_optim_sched (⟨[], [], 0⟩ : DSConfig) (0 : ℕ) (1 : ℕ)).2.2
      "zero_allow_untested_optimizer" = some (CVal.bool true) ∧
    (deepspeed_optim_sched (⟨[], [], 0⟩ : DSConfig) (0 : ℕ) (1 : ℕ)).2.1 = some 1 := by
  have h := c7_optim_sched_delegation (⟨[], [], 0⟩ : DSConfig) (0 : ℕ) (1 : ℕ)
  obtain ⟨h1, h2⟩ := h.2.1 (by decide)
  exact ⟨h1, h2, h.2.2.mpr (by decide)⟩

theorem rank_name_attempt_ready (ws r : ℕ) :
    rank_name_attempt (MpuState.ready ws r) =
      if ws = 1 then Except.ok "" else Except.ok ("_mp_rank_" ++ format02 r) := by
  unfold rank_name_attempt get_tensor_model_parallel_world_size get_tensor_model_parallel_rank
  rfl

/-- C8: the checkpoint rank qualifier is empty at tensor-parallel width 1
and when the mpu lookup fails on an uninitialized state; otherwise it is
`_mp_rank_` followed by the rank in `{:02d}` format, e.g. `_mp_rank_02` for
rank 2 at width 4. -/
theorem c8_rank_qualifier (ws r : ℕ) :
    rank_name (MpuState.ready 1 r) = "" ∧
    rank_name MpuState.uninitialized = "" ∧
    (ws ≠ 1 → rank_name (MpuState.ready ws r) = "_mp_rank_" ++ format02 r) ∧
    rank_name (MpuState.ready 4 2) = "_mp_rank_02" := by
  refine ⟨rfl, rfl, ?_, by decide⟩
  intro hws
  unfold rank_name
  rw [rank_name_attempt_ready, if_neg hws]

/-- Witness for C8: at width 4 and rank 2 the qualifier is `_mp_rank_`
followed by the two-digit rank. -/
theorem c8_rank_qualifier_witness :
    rank_name (MpuState.ready 4 2) = "_mp_rank_" ++ format02 2 :=
  (c8_rank_qualifier 4 2).2.2.1 (by decide)

/-- Counterexample for C9: on the inference-only flat-load path with
`strict = true`, a checkpoint key absent from the model's state raises the
strict-load error rather than merely being skipped — the diagnostic message
is emitted but the load still fails, contrary to the claim that no error is
raised regardless of the strict flag. -/
theorem c9_skip_keys_counterexample :
    load_flat_checkpoint [("a", (0 : ℤ))] ⟨[("b", 1)]⟩ true
      = Except.error (LoadError.strictLoadError ["b"] ["a"]) ∧
    "Skip key: b" ∈ load_key_messages [("b", (1 : ℤ))] [("a", 0)] := by
  constructor
  · decide
  · decide

/-- C9 (amended): on the inference-only flat-load path, every checkpoint key
absent from the model's state gets a `Skip key` diagnostic; with
`strict = false` the load never raises and assigns the checkpoint value to
every matching model key; with `strict = true` an absent key makes the
state-dict load raise (the caller's strict flag is passed through). -/
theorem c9_flat_load_amended {V : Type} (model_dict : List (String × V))
    (ckpt : CheckpointFile V) :
    (∀ k, k ∈ ckpt.module.map Prod.fst → lookupVal model_dict k = none →
      ("Skip key: " ++ k) ∈ load_key_messages ckpt.module model_dict) ∧
    (load_flat_checkpoint model_dict ckpt false
      = Except.ok (load_key_messages ckpt.module model_dict,
          model_dict.map (fun p => (p.1, (lookupVal ckpt.module p.1).getD p.2)))) ∧
    ((∃ k, k ∈ ckpt.module.map Prod.fst ∧ lookupVal model_dict k = none) →
      load_flat_checkpoint model_dict ckpt true
        = Except.error (LoadError.strictLoadError
            (unexpected_keys model_dict ckpt.module)
            (missing_keys model_dict ckpt.module))) := by
  refine ⟨?_, ?_, ?_⟩
  · intro k hk hnone
    obtain ⟨p, hp, rfl⟩ := List.mem_map.mp hk
    unfold load_key_messages
    apply List.mem_map.mpr
    refine ⟨p, hp, ?_⟩
    rw [hnone]
    rfl
  · unfold load_flat_checkpoint load_state_dict
    simp
  · rintro ⟨k, hk, hnone⟩
    have hmem : k ∈ unexpected_keys model_dict ckpt.module := by
      unfold unexpected_keys
      apply List.mem_filter.mpr
      refine ⟨hk, ?_⟩
      rw [hnone]
      rfl
    have hne : (unexpected_keys model_dict ckpt.module).isEmpty = false := by
      cases hu : unexpected_keys model_dict ckpt.module with
      | nil =>
          rw [hu] at hmem
          exact absurd hmem (List.not_mem_nil k)
      | cons a l => rfl
    unfold load_flat_checkpoint load_state_dict
    simp [hne]

/-- Witness for C9 (amended): loading `{"b": 1}` into a model holding only
key `a` succeeds without error when strict is off, and fails with the
strict-load error naming `b` as unexpected when strict is on. -/
theorem c9_flat_load_amended_witness :
    load_flat_checkpoint [("a", (0 : ℤ))] ⟨[("b", 1)]⟩ false
      = Except.ok (load_key_messages [("b", (1 : ℤ))] [("a", 0)],
          ([("a", (0 : ℤ))]).map (fun p => (p.1, (lookupVal [("b", (1 : ℤ))] p.1).getD p.2))) ∧
    load_flat_checkpoint [("a", (0 : ℤ))] ⟨[("b", 1)]⟩ true
      = Except.error (LoadError.strictLoadError
          (unexpected_keys [("a", (0 : ℤ))] [("b", 1)])
          (missing_keys [("a", (0 : ℤ))] [("b", 1)])) :=
  ⟨(c9_flat_load_amended [("a", (0 : ℤ))] ⟨[("b", 1)]⟩).2.1,
   (c9_flat_load_amended [("a", (0 : ℤ))] ⟨[("b", 1)]⟩).2.2 ⟨"b", by decide, by decide⟩⟩

/-- C10: `load_checkpoints` asserts that the checkpoint path prefix is an
existing directory before doing anything else, so every call whose prefix is
not a directory fails with the assertion error — on the engine-backed path
as well as the flat path, whatever the other arguments. -/
theorem c10_assert_isdir {V : Type} (fs : FileSystem V) (mpu : MpuState)
    (p : String) (engine_built : Bool) (model_dict : List (String × V))
    (load_all_state strict : Bool)
    (h : fs.isDir p = false) :
    load_checkpoints fs mpu p engine_built model_dict load_all_state strict
      = Except.error LoadError.assertionError := by
  unfold load_checkpoints
  rw [h]
  rfl

/-- Witness for C10: a file system with no directories makes the
engine-backed load fail with the assertion error. -/
theorem c10_assert_isdir_witness :
    load_checkpoints (⟨fun _ => false, fun _ => false, fun _ => none⟩ : FileSystem ℤ)
      MpuState.uninitialized "ckpt/epoch_1" true [] true true
      = Except.error LoadError.assertionError :=
  c10_assert_isdir _ MpuState.uninitialized "ckpt/epoch_1" true [] true true rfl

